import Mathlib

/-!
Shallow embedding of the notebook `deepseek-r1-distilled-llama-70b.ipynb`.

The notebook defines three functions — `load_model`, `generate_text` and
`clear_gpu_memory` — all of which are thin wrappers around an external
machine-learning framework (tokenization, checkpoint resolution, the
autoregressive decode loop, accelerator memory accounting).  The framework
itself is not part of the repository, so it is embedded abstractly: a
`Tokenizer`, a `Model` and a `Hub` are records of opaque operations, each of
which may raise a framework exception of an opaque type `ε`.  The notebook's
own code is translated line by line into total Lean functions over these
records; Python exceptions become `Except` results.
-/

/-- An exception observable from the embedded notebook code: either an
exception raised by the external framework (opaque payload of type `ε`),
or the notebook's own `IndexError`, raised by the subscript
`generated_texts[0]` when the list of decoded texts is empty. -/
inductive PyExc (ε : Type) : Type
  | ext (e : ε) : PyExc ε
  | indexError : PyExc ε
deriving DecidableEq

/-- A Python value that is either a single string or a list of strings —
the two possible shapes of `generate_text`'s return value. -/
inductive StrOrList : Type
  | str (s : String)
  | list (l : List String)
deriving DecidableEq

/-- The tokenizer handle returned by `AutoTokenizer.from_pretrained`,
modelled abstractly.  `encode` stands for the call
`tokenizer(prompt, return_tensors="pt")` followed by `.to(model.device)`
and the `.input_ids` access (moving tensors between devices does not change
the token identifiers, so the device move is elided); `decode` stands for
`tokenizer.decode(output, skip_special_tokens)`.  Both operations live in
the external framework and may raise a framework exception of type `ε`. -/
structure Tokenizer (ε : Type) where
  encode : String → Except ε (List Nat)
  decode : List Nat → Bool → Except ε String
  eos_token_id : Nat

/-- The argument record the notebook builds at the `model.generate(...)`
call site inside `generate_text`.  Field names follow the keyword
arguments of the source.  The notebook performs no range or type check on
any of these values; scalar literals such as `0.7` are embedded as the
rationals they denote. -/
structure GenerateCall where
  input_ids : List Nat
  max_length : Int
  temperature : ℚ
  do_sample : Bool
  top_p : ℚ
  num_return_sequences : Int
  pad_token_id : Nat
deriving DecidableEq

/-- The model handle returned by `AutoModelForCausalLM.from_pretrained`,
modelled abstractly.  `generate` is the external decode routine
`model.generate`; it receives the notebook's argument record and returns a
list of output token sequences (the rows of the output tensor, iterated in
order by `for output in outputs`), or raises a framework exception. -/
structure Model (ε : Type) where
  device : Nat
  generate : GenerateCall → Except ε (List (List Nat))

/-- The argument record `generate_text` passes to `model.generate`:
`input_ids` are the encoded prompt tokens, `max_length`, `temperature`,
`top_p` and `num_return_sequences` are the caller's parameters passed
through verbatim, `do_sample` is the literal `True`, and `pad_token_id` is
`tokenizer.eos_token_id`. -/
def generate_call {ε : Type} (input_ids : List Nat) (tokenizer : Tokenizer ε)
    (max_length : Int) (temperature : ℚ) (top_p : ℚ)
    (num_return_sequences : Int) : GenerateCall :=
  { input_ids := input_ids
    max_length := max_length
    temperature := temperature
    do_sample := true
    top_p := top_p
    num_return_sequences := num_return_sequences
    pad_token_id := tokenizer.eos_token_id }

/-- The list comprehension
`[tokenizer.decode(output, skip_special_tokens=True) for output in outputs]`:
decodes every output row in order, propagating the first framework
exception raised by `tokenizer.decode`. -/
def decode_all {ε : Type} (tokenizer : Tokenizer ε) :
    List (List Nat) → Except ε (List String)
  | [] => Except.ok []
  | output :: rest =>
    match tokenizer.decode output true with
    | Except.error e => Except.error e
    | Except.ok s =>
      match decode_all tokenizer rest with
      | Except.error e => Except.error e
      | Except.ok ss => Except.ok (s :: ss)

/-- The notebook's `generate_text` function.  It encodes the prompt, calls
the external decode routine `model.generate` with the argument record
`generate_call`, decodes every output row, and returns
`generated_texts[0] if num_return_sequences == 1 else generated_texts`.
Framework exceptions propagate unmodified (injected by `PyExc.ext`); the
subscript `generated_texts[0]` on an empty list raises `IndexError`. -/
def generate_text {ε : Type} (prompt : String) (model : Model ε)
    (tokenizer : Tokenizer ε) (max_length : Int := 100)
    (temperature : ℚ := 7/10) (top_p : ℚ := 9/10)
    (num_return_sequences : Int := 1) : Except (PyExc ε) StrOrList :=
  match tokenizer.encode prompt with
  | Except.error e => Except.error (PyExc.ext e)
  | Except.ok input_ids =>
    match model.generate (generate_call input_ids tokenizer max_length
        temperature top_p num_return_sequences) with
    | Except.error e => Except.error (PyExc.ext e)
    | Except.ok outputs =>
      match decode_all tokenizer outputs with
      | Except.error e => Except.error (PyExc.ext e)
      | Except.ok generated_texts =>
        if num_return_sequences = 1 then
          match generated_texts with
          | [] => Except.error PyExc.indexError
          | t :: _ => Except.ok (StrOrList.str t)
        else
          Except.ok (StrOrList.list generated_texts)

/-- The reduced-precision numeric format selector passed as `torch_dtype`. -/
inductive TorchDtype : Type
  | float16
  | float32
deriving DecidableEq

/-- The keyword arguments of `AutoModelForCausalLM.from_pretrained`. -/
structure FromPretrainedOpts where
  torch_dtype : TorchDtype
  device_map : String
  trust_remote_code : Bool
deriving DecidableEq

/-- The external model-hub client, modelled abstractly:
`tokenizer_from_pretrained` is `AutoTokenizer.from_pretrained` and
`model_from_pretrained` is `AutoModelForCausalLM.from_pretrained`.  Both
resolve a checkpoint identifier remotely and may raise a framework
exception of type `ε` (network failure, incompatible checkpoint,
out-of-memory). -/
structure Hub (ε : Type) where
  tokenizer_from_pretrained : String → Except ε (Tokenizer ε)
  model_from_pretrained : String → FromPretrainedOpts → Except ε (Model ε)

/-- The keyword arguments the notebook passes to
`AutoModelForCausalLM.from_pretrained`: `torch_dtype=torch.float16`,
`device_map="auto"`, `trust_remote_code=True`. -/
def load_model_opts : FromPretrainedOpts :=
  { torch_dtype := TorchDtype.float16
    device_map := "auto"
    trust_remote_code := true }

/-- The notebook's `load_model` function: loads the tokenizer, then the
model, from the same checkpoint identifier, and returns the pair
`(model, tokenizer)`.  The identifier defaults to the embedded literal.
Framework exceptions propagate unmodified. -/
def load_model {ε : Type} (hub : Hub ε)
    (model_name : String := "deepseek-ai/DeepSeek-R1-Distill-Llama-70B") :
    Except ε (Model ε × Tokenizer ε) :=
  match hub.tokenizer_from_pretrained model_name with
  | Except.error e => Except.error e
  | Except.ok tokenizer =>
    match hub.model_from_pretrained model_name load_model_opts with
    | Except.error e => Except.error e
    | Except.ok model => Except.ok (model, tokenizer)

/-- The observable state touched by `clear_gpu_memory`: the accelerator
runtime (`torch.cuda`) and whether Python garbage collection has run. -/
structure CudaState where
  is_available : Bool
  device_count : Nat
  memory_allocated : Nat → Nat
  cache_cleared : Bool

/-- Interpreter state for the memory-management cell. -/
structure PyState where
  cuda : CudaState
  gc_collected : Bool

/-- The notebook's `clear_gpu_memory` function.  `gc.collect()` and
`torch.cuda.empty_cache()` run unconditionally; both are total
(`empty_cache` is a documented no-op when the accelerator runtime is not
initialised, and the spec likewise assumes collection and cache-clearing
always succeed), so the function has no failure path and its codomain is a
plain pair.  The per-device report — one `print` per device of
`torch.cuda.memory_allocated(i)` — runs only under
`torch.cuda.is_available()`; it is modelled as the list of pairs
(device index, allocated bytes), eliding the decimal-GB string formatting. -/
def clear_gpu_memory (st : PyState) : PyState × List (Nat × Nat) :=
  let st1 : PyState := { st with gc_collected := true }
  let st2 : PyState := { st1 with cuda := { st1.cuda with cache_cleared := true } }
  let report : List (Nat × Nat) :=
    if st2.cuda.is_available then
      (List.range st2.cuda.device_count).map (fun i => (i, st2.cuda.memory_allocated i))
    else []
  (st2, report)

/-- Every successful run of `decode_all` produces exactly one decoded
string per output row. -/
theorem decode_all_length {ε : Type} (tokenizer : Tokenizer ε) :
    ∀ (outputs : List (List Nat)) (texts : List String),
      decode_all tokenizer outputs = Except.ok texts →
      texts.length = outputs.length := by
  intro outputs
  induction outputs with
  | nil =>
    intro texts h
    simp [decode_all] at h
    simp [← h]
  | cons output rest ih =>
    intro texts h
    simp only [decode_all] at h
    cases hdec : tokenizer.decode output true with
    | error e => rw [hdec] at h; exact absurd h (by simp)
    | ok s =>
      rw [hdec] at h
      cases hrest : decode_all tokenizer rest with
      | error e => rw [hrest] at h; exact absurd h (by simp)
      | ok ss =>
        rw [hrest] at h
        simp at h
        subst h
        simp [ih ss hrest]

/-- A concrete well-behaved tokenizer used in witnesses: `encode` maps a
prompt to a one-token list, `decode` renders the row length. -/
def tokW : Tokenizer Unit :=
  { encode := fun s => Except.ok [s.length]
    decode := fun ids _ => Except.ok (toString ids.length)
    eos_token_id := 2 }

/-- A concrete well-behaved model used in witnesses: it honours the
framework contract and returns exactly `num_return_sequences` output rows. -/
def modelW : Model Unit :=
  { device := 0
    generate := fun c => Except.ok (List.replicate c.num_return_sequences.toNat c.input_ids) }

/-- A concrete model whose decode routine returns no output rows. -/
def modelEmptyW : Model Unit :=
  { device := 0
    generate := fun _ => Except.ok [] }

/-- A concrete tokenizer whose `encode` raises a framework exception. -/
def tokBadW : Tokenizer Unit :=
  { encode := fun _ => Except.error ()
    decode := fun _ _ => Except.ok ""
    eos_token_id := 2 }

/-- A concrete hub on which both loads succeed. -/
def hubW : Hub Unit :=
  { tokenizer_from_pretrained := fun _ => Except.ok tokW
    model_from_pretrained := fun _ _ => Except.ok modelW }

/-- A concrete hub on which the tokenizer load raises. -/
def hubBadW : Hub Unit :=
  { tokenizer_from_pretrained := fun _ => Except.error ()
    model_from_pretrained := fun _ _ => Except.ok modelW }

/-- Claim C1: whenever the framework calls succeed — the prompt encodes,
the decode routine invoked with `num_return_sequences = 1` returns its
output rows, and every row decodes (to a nonempty list of texts, as the
framework contract guarantees for a loaded pair) — `generate_text` with
`num_return_sequences = 1` returns the single first decoded string, never
a list of strings. -/
theorem generate_text_single_sequence {ε : Type} (prompt : String)
    (model : Model ε) (tok : Tokenizer ε) (ml : Int) (tmp tp : ℚ)
    (input_ids : List Nat) (outputs : List (List Nat)) (texts : List String)
    (henc : tok.encode prompt = Except.ok input_ids)
    (hgen : model.generate (generate_call input_ids tok ml tmp tp 1) = Except.ok outputs)
    (hdec : decode_all tok outputs = Except.ok texts)
    (hne : texts ≠ []) :
    generate_text prompt model tok ml tmp tp 1 =
      Except.ok (StrOrList.str (texts.headD "")) := by
  simp only [generate_text, henc, hgen, hdec]
  cases texts with
  | nil => exact absurd rfl hne
  | cons t ts => simp

/-- Witness for C1 at a concrete prompt, model and tokenizer. -/
theorem generate_text_single_sequence_witness :
    generate_text ("hi") modelW tokW 100 (7/10) (9/10) 1 =
      Except.ok (StrOrList.str "1") :=
  generate_text_single_sequence ("hi") modelW tokW 100 (7/10) (9/10)
    [2] [[2]] ["1"] rfl rfl rfl (by decide)

/-- Claim C2: whenever the framework calls succeed and the decode routine
invoked with `num_return_sequences = N` returns `N` output rows (the
framework contract), `generate_text` with `num_return_sequences = N > 1`
returns the list of decoded strings, of length exactly `N`, in the order
the rows were produced (decoded front to back by `decode_all`). -/
theorem generate_text_multi_sequence {ε : Type} (prompt : String)
    (model : Model ε) (tok : Tokenizer ε) (ml : Int) (tmp tp : ℚ) (N : Int)
    (input_ids : List Nat) (outputs : List (List Nat)) (texts : List String)
    (hN : 1 < N)
    (henc : tok.encode prompt = Except.ok input_ids)
    (hgen : model.generate (generate_call input_ids tok ml tmp tp N) = Except.ok outputs)
    (hlen : outputs.length = N.toNat)
    (hdec : decode_all tok outputs = Except.ok texts) :
    generate_text prompt model tok ml tmp tp N = Except.ok (StrOrList.list texts) ∧
      texts.length = N.toNat := by
  have hne : ¬(N = 1) := by omega
  constructor
  · simp only [generate_text, henc, hgen, hdec]
    simp [hne]
  · rw [decode_all_length tok outputs texts hdec, hlen]

/-- Witness for C2 at `N = 2` with a concrete prompt, model and tokenizer. -/
theorem generate_text_multi_sequence_witness :
    generate_text ("hi") modelW tokW 100 (7/10) (9/10) 2 =
      Except.ok (StrOrList.list ["1", "1"]) ∧
      (["1", "1"] : List String).length = (2 : Int).toNat :=
  generate_text_multi_sequence ("hi") modelW tokW 100 (7/10) (9/10) 2
    [2] [[2], [2]] ["1", "1"] (by decide) rfl rfl rfl rfl

/-- Claim C3: the defaults of `generate_text` are maximum length `100`,
temperature `0.7`, nucleus threshold `0.9` and sequence count `1`, and for
every call — any integer lengths and counts (including zero and negative)
and any rational temperature and threshold, no range check intervening —
all four values appear unchanged in the argument record handed to the
external decode routine `model.generate`. -/
theorem generate_text_params_passthrough {ε : Type} :
    (∀ (prompt : String) (model : Model ε) (tok : Tokenizer ε),
        generate_text prompt model tok =
          generate_text prompt model tok 100 (7/10) (9/10) 1) ∧
    (∀ (input_ids : List Nat) (tok : Tokenizer ε) (ml : Int) (tmp tp : ℚ)
        (n : Int),
        (generate_call input_ids tok ml tmp tp n).max_length = ml ∧
        (generate_call input_ids tok ml tmp tp n).temperature = tmp ∧
        (generate_call input_ids tok ml tmp tp n).top_p = tp ∧
        (generate_call input_ids tok ml tmp tp n).num_return_sequences = n) :=
  ⟨fun _ _ _ => rfl, fun _ _ _ _ _ _ => ⟨rfl, rfl, rfl, rfl⟩⟩

/-- Claim C5: on every call, the `pad_token_id` field of the argument
record `generate_text` passes to the decode routine equals the tokenizer's
`eos_token_id`. -/
theorem generate_text_pad_token_eq_eos {ε : Type} (input_ids : List Nat)
    (tok : Tokenizer ε) (ml : Int) (tmp tp : ℚ) (n : Int) :
    (generate_call input_ids tok ml tmp tp n).pad_token_id = tok.eos_token_id :=
  rfl

/-- Claim C8: on every call, whatever the temperature, the `do_sample`
field of the argument record `generate_text` passes to the decode routine
is the literal `true`; greedy decoding is never selected. -/
theorem generate_text_do_sample_always {ε : Type} (input_ids : List Nat)
    (tok : Tokenizer ε) (ml : Int) (tmp tp : ℚ) (n : Int) :
    (generate_call input_ids tok ml tmp tp n).do_sample = true :=
  rfl

/-- Claim C9: once the framework calls have succeeded, the shape of
`generate_text`'s result depends only on whether `num_return_sequences`
equals `1`, not on how many rows the decode routine produced: when it is
`1` the first decoded element is returned (an `IndexError` when the list
of decoded texts is empty), and for every other value — `0` and negatives
included — the whole list is returned. -/
theorem generate_text_shape_by_count {ε : Type} (prompt : String)
    (model : Model ε) (tok : Tokenizer ε) (ml : Int) (tmp tp : ℚ) (n : Int)
    (input_ids : List Nat) (outputs : List (List Nat)) (texts : List String)
    (henc : tok.encode prompt = Except.ok input_ids)
    (hgen : model.generate (generate_call input_ids tok ml tmp tp n) = Except.ok outputs)
    (hdec : decode_all tok outputs = Except.ok texts) :
    (n = 1 →
      (texts = [] →
        generate_text prompt model tok ml tmp tp n = Except.error PyExc.indexError) ∧
      ∀ (t : String) (ts : List String), texts = t :: ts →
        generate_text prompt model tok ml tmp tp n = Except.ok (StrOrList.str t)) ∧
    (n ≠ 1 →
      generate_text prompt model tok ml tmp tp n = Except.ok (StrOrList.list texts)) := by
  constructor
  · intro h1
    subst h1
    constructor
    · intro hnil
      subst hnil
      simp [generate_text, henc, hgen, hdec]
    · intro t ts hcons
      subst hcons
      simp [generate_text, henc, hgen, hdec]
  · intro hne
    simp [generate_text, henc, hgen, hdec, hne]

/-- Witness for C9: with a model producing no output rows, sequence count
`1` raises `IndexError` while sequence count `0` returns the empty list. -/
theorem generate_text_shape_by_count_witness :
    generate_text ("p") modelEmptyW tokW 100 (7/10) (9/10) 1 =
        Except.error PyExc.indexError ∧
      generate_text ("p") modelEmptyW tokW 100 (7/10) (9/10) 0 =
        Except.ok (StrOrList.list []) :=
  ⟨((generate_text_shape_by_count ("p") modelEmptyW tokW 100 (7/10) (9/10) 1
      [1] [] [] rfl rfl rfl).1 rfl).1 rfl,
    (generate_text_shape_by_count ("p") modelEmptyW tokW 100 (7/10) (9/10) 0
      [1] [] [] rfl rfl rfl).2 (by decide)⟩

/-- Claim C4: when no accelerator is present, `clear_gpu_memory` returns
normally — its codomain is a plain pair, so there is no failure path —
performing only the unconditional collection and cache-clear steps and
printing an empty (no-op) report. -/
theorem clear_gpu_memory_no_accelerator (st : PyState)
    (h : st.cuda.is_available = false) :
    clear_gpu_memory st =
      ({ st with
          gc_collected := true
          cuda := { st.cuda with cache_cleared := true } }, []) := by
  simp [clear_gpu_memory, h]

/-- Concrete state with no accelerator, used by the C4 witness. -/
def stNoGpuW : PyState :=
  { cuda :=
      { is_available := false
        device_count := 0
        memory_allocated := fun _ => 0
        cache_cleared := false }
    gc_collected := false }

/-- Witness for C4 at a concrete accelerator-free state. -/
theorem clear_gpu_memory_no_accelerator_witness :
    clear_gpu_memory stNoGpuW =
      ({ stNoGpuW with
          gc_collected := true
          cuda := { stNoGpuW.cuda with cache_cleared := true } }, []) :=
  clear_gpu_memory_no_accelerator stNoGpuW rfl

/-- Claim C10: on every invocation of `clear_gpu_memory`, garbage
collection and the accelerator cache eviction both run, whatever the
availability flag; only the per-device memory report is guarded by the
availability check. -/
theorem clear_gpu_memory_unconditional_collect (st : PyState) :
    (clear_gpu_memory st).1.gc_collected = true ∧
    (clear_gpu_memory st).1.cuda.cache_cleared = true ∧
    (clear_gpu_memory st).2 =
      (if st.cuda.is_available then
        (List.range st.cuda.device_count).map (fun i => (i, st.cuda.memory_allocated i))
      else []) :=
  ⟨rfl, rfl, rfl⟩

/-- Claim C6: whenever both resolutions succeed, `load_model` returns the
pair of the model handle and the tokenizer handle, both resolved from the
same checkpoint identifier, and a call with no argument is the same as a
call with the embedded literal identifier. -/
theorem load_model_pair_and_default {ε : Type} (hub : Hub ε)
    (model_name : String) (tok : Tokenizer ε) (model : Model ε)
    (htok : hub.tokenizer_from_pretrained model_name = Except.ok tok)
    (hmod : hub.model_from_pretrained model_name load_model_opts = Except.ok model) :
    load_model hub model_name = Except.ok (model, tok) ∧
      load_model hub = load_model hub ("deepseek-ai/DeepSeek-R1-Distill-Llama-70B") := by
  constructor
  · simp [load_model, htok, hmod]
  · rfl

/-- Witness for C6 at a concrete hub and identifier. -/
theorem load_model_pair_and_default_witness :
    load_model hubW ("m") = Except.ok (modelW, tokW) ∧
      load_model hubW = load_model hubW ("deepseek-ai/DeepSeek-R1-Distill-Llama-70B") :=
  load_model_pair_and_default hubW ("m") tokW modelW rfl rfl

/-- Claim C7: every framework exception propagates unmodified to the
caller — no call site in `load_model` or `generate_text` catches,
translates or retries: a tokenizer-load failure, a model-load failure, an
encode failure, a decode-routine failure and a text-decode failure each
surface as the very exception the framework raised. -/
theorem framework_errors_propagate {ε : Type} (e : ε) :
    (∀ (hub : Hub ε) (model_name : String),
        hub.tokenizer_from_pretrained model_name = Except.error e →
        load_model hub model_name = Except.error e) ∧
    (∀ (hub : Hub ε) (model_name : String) (tok : Tokenizer ε),
        hub.tokenizer_from_pretrained model_name = Except.ok tok →
        hub.model_from_pretrained model_name load_model_opts = Except.error e →
        load_model hub model_name = Except.error e) ∧
    (∀ (prompt : String) (model : Model ε) (tok : Tokenizer ε) (ml : Int)
        (tmp tp : ℚ) (n : Int),
        tok.encode prompt = Except.error e →
        generate_text prompt model tok ml tmp tp n = Except.error (PyExc.ext e)) ∧
    (∀ (prompt : String) (model : Model ε) (tok : Tokenizer ε) (ml : Int)
        (tmp tp : ℚ) (n : Int) (input_ids : List Nat),
        tok.encode prompt = Except.ok input_ids →
        model.generate (generate_call input_ids tok ml tmp tp n) = Except.error e →
        generate_text prompt model tok ml tmp tp n = Except.error (PyExc.ext e)) ∧
    (∀ (prompt : String) (model : Model ε) (tok : Tokenizer ε) (ml : Int)
        (tmp tp : ℚ) (n : Int) (input_ids : List Nat) (outputs : List (List Nat)),
        tok.encode prompt = Except.ok input_ids →
        model.generate (generate_call input_ids tok ml tmp tp n) = Except.ok outputs →
        decode_all tok outputs = Except.error e →
        generate_text prompt model tok ml tmp tp n = Except.error (PyExc.ext e)) := by
  refine ⟨?_, ?_, ?_, ?_, ?_⟩
  · intro hub model_name htok
    simp [load_model, htok]
  · intro hub model_name tok htok hmod
    simp [load_model, htok, hmod]
  · intro prompt model tok ml tmp tp n henc
    simp [generate_text, henc]
  · intro prompt model tok ml tmp tp n input_ids henc hgen
    simp [generate_text, henc, hgen]
  · intro prompt model tok ml tmp tp n input_ids outputs henc hgen hdec
    simp [generate_text, henc, hgen, hdec]

/-- Witness for C7: a failing tokenizer load and a failing prompt encode
each surface their framework exception unmodified. -/
theorem framework_errors_propagate_witness :
    load_model hubBadW ("m") = Except.error () ∧
      generate_text ("p") modelW tokBadW 100 (7/10) (9/10) 1 =
        Except.error (PyExc.ext ()) :=
  ⟨(framework_errors_propagate ()).1 hubBadW ("m") rfl,
    (framework_errors_propagate ()).2.2.1 ("p") modelW tokBadW 100 (7/10) (9/10) 1 rfl⟩
